import Mathlib

/-!
Verification of the SANTOOR TV-optimizer scoring and optimization engine.

The numeric type of the source (JS `number`) is modelled by `ℚ`; all the
arithmetic the claims touch is exact decimal arithmetic, so rationals model
it faithfully (float error is far below the 1e-6 tolerance the spec allows).
JS `Map<string, T>` objects are modelled by association lists with
insert-or-replace semantics, and `undefined`-able fields by `Option`.
Presentation-only strings (the `reason` field of optimization results) are
not modelled; no claim concerns them.
-/

/-- JS `Map.set` on an association list: replace the first binding of the key,
or append a new binding at the end (JS `Map` keeps insertion order). -/
def mapSet {α : Type} : List (String × α) → String → α → List (String × α)
  | [], k, v => [(k, v)]
  | p :: rest, k, v => if p.1 = k then (k, v) :: rest else p :: mapSet rest k v

/-- JS `Map.get` on an association list: value of the first binding of the key. -/
def mapGet {α : Type} : List (String × α) → String → Option α
  | [], _ => none
  | p :: rest, k => if p.1 = k then some p.2 else mapGet rest k

theorem mapGet_mapSet_self {α : Type} (m : List (String × α)) (k : String) (v : α) :
    mapGet (mapSet m k v) k = some v := by
  induction m with
  | nil => simp [mapSet, mapGet]
  | cons p rest ih =>
    by_cases h : p.1 = k
    · simp [mapSet, mapGet, h]
    · simp [mapSet, mapGet, h, ih]

theorem mapGet_mapSet_ne {α : Type} (m : List (String × α)) (k k' : String) (v : α)
    (h : k' ≠ k) : mapGet (mapSet m k v) k' = mapGet m k' := by
  induction m with
  | nil => simp [mapSet, mapGet, Ne.symm h]
  | cons p rest ih =>
    by_cases hp : p.1 = k
    · subst hp
      simp [mapSet, mapGet, Ne.symm h]
    · simp only [mapSet, if_neg hp]
      by_cases hk : p.1 = k'
      · simp [mapGet, hk]
      · simp [mapGet, hk, ih]

namespace Opt

/-- The channel record of the optimization module (`ChannelRecord` in the
optimizer source). Optional competitor fields are `Option`-valued. -/
structure ChannelRecord where
  channel : String
  genre : String
  brandAReach : ℚ
  maxCompReach : ℚ
  gap : ℚ
  channelShare : ℚ
  indexVsBaseline : ℚ
  indexVsCompetition : ℚ
  brandDReach : Option ℚ := none
  brandEReach : Option ℚ := none
  brandBReach : Option ℚ := none
  brandCReach : Option ℚ := none
  atcIndex : Option ℚ := none
  optimizationType : Option String := none
deriving Repr, DecidableEq

/-- An optimization result (`OptimizationResult`); the presentation-only
`reason` string of the source is not modelled. -/
structure OptimizationResult where
  channel : String
  recommendation : String
  priority : String
deriving Repr, DecidableEq

/-- `calculateStatus`: competitive-position status ladder. -/
def calculateStatus (ch : ChannelRecord) : String :=
  if ch.brandAReach = 0 ∧ ch.maxCompReach = 0 then "INACTIVE"
  else if ch.brandAReach = 0 ∧ 2 ≤ ch.maxCompReach ∧ 1 ≤ ch.channelShare then "OPPORTUNITY"
  else if ch.brandAReach = 0 ∧ 0 < ch.maxCompReach then "INACTIVE"
  else if 0 < ch.brandAReach ∧ ch.maxCompReach = 0 then "MONOPOLY"
  else if 150 ≤ ch.indexVsCompetition then "DOMINANT"
  else if 100 ≤ ch.indexVsCompetition then "LEADING"
  else if 80 ≤ ch.indexVsCompetition then "CLOSE"
  else if 50 ≤ ch.indexVsCompetition then "BEHIND"
  else "CRITICAL"

/-- The eight status labels the source can produce. -/
def statusLabels : List String :=
  ["INACTIVE", "OPPORTUNITY", "MONOPOLY", "DOMINANT", "LEADING", "CLOSE", "BEHIND", "CRITICAL"]

end Opt

/-- C1: `calculateStatus` is the five-step ladder evaluated in order —
INACTIVE when both reaches are 0; OPPORTUNITY when brand A is absent,
competition is at least 2.0 and share at least 1.0; INACTIVE when brand A is
absent and competition is present but those thresholds fail; MONOPOLY when
brand A is present and competition absent; otherwise classified by
`indexVsCompetition` (≥150 DOMINANT, ≥100 LEADING, ≥80 CLOSE, ≥50 BEHIND,
else CRITICAL) — and it always returns one of the eight defined labels. -/
theorem calculateStatus_ladder_and_total (ch : Opt.ChannelRecord) :
    (ch.brandAReach = 0 ∧ ch.maxCompReach = 0 → Opt.calculateStatus ch = "INACTIVE")
    ∧ (ch.brandAReach = 0 ∧ 2 ≤ ch.maxCompReach ∧ 1 ≤ ch.channelShare →
        Opt.calculateStatus ch = "OPPORTUNITY")
    ∧ (ch.brandAReach = 0 ∧ 0 < ch.maxCompReach ∧
        ¬(2 ≤ ch.maxCompReach ∧ 1 ≤ ch.channelShare) →
        Opt.calculateStatus ch = "INACTIVE")
    ∧ (0 < ch.brandAReach ∧ ch.maxCompReach = 0 → Opt.calculateStatus ch = "MONOPOLY")
    ∧ (0 < ch.brandAReach ∧ 0 < ch.maxCompReach ∧ 150 ≤ ch.indexVsCompetition →
        Opt.calculateStatus ch = "DOMINANT")
    ∧ (0 < ch.brandAReach ∧ 0 < ch.maxCompReach ∧
        100 ≤ ch.indexVsCompetition ∧ ch.indexVsCompetition < 150 →
        Opt.calculateStatus ch = "LEADING")
    ∧ (0 < ch.brandAReach ∧ 0 < ch.maxCompReach ∧
        80 ≤ ch.indexVsCompetition ∧ ch.indexVsCompetition < 100 →
        Opt.calculateStatus ch = "CLOSE")
    ∧ (0 < ch.brandAReach ∧ 0 < ch.maxCompReach ∧
        50 ≤ ch.indexVsCompetition ∧ ch.indexVsCompetition < 80 →
        Opt.calculateStatus ch = "BEHIND")
    ∧ (0 < ch.brandAReach ∧ 0 < ch.maxCompReach ∧ ch.indexVsCompetition < 50 →
        Opt.calculateStatus ch = "CRITICAL")
    ∧ Opt.calculateStatus ch ∈ Opt.statusLabels := by
  refine ⟨?_, ?_, ?_, ?_, ?_, ?_, ?_, ?_, ?_, ?_⟩
  · rintro ⟨h1, h2⟩
    simp [Opt.calculateStatus, h1, h2]
  · rintro ⟨h1, h2, h3⟩
    have h4 : ¬ ch.maxCompReach = 0 := by intro h; rw [h] at h2; linarith
    simp [Opt.calculateStatus, h1, h2, h3, h4]
  · rintro ⟨h1, h2, h3⟩
    have h4 : ¬ ch.maxCompReach = 0 := ne_of_gt h2
    rcases not_and_or.mp h3 with h5 | h5
    · have h6 : ch.maxCompReach < 2 := lt_of_not_le h5
      simp [Opt.calculateStatus, h1, h4, h2]
      intro h7
      linarith
    · have h6 : ch.channelShare < 1 := lt_of_not_le h5
      simp [Opt.calculateStatus, h1, h4, h2]
      intro h7
      linarith
  · rintro ⟨h1, h2⟩
    have h3 : ¬ ch.brandAReach = 0 := ne_of_gt h1
    simp [Opt.calculateStatus, h1, h2, h3]
  · rintro ⟨h1, h2, h3⟩
    have h4 : ¬ ch.brandAReach = 0 := ne_of_gt h1
    have h5 : ¬ ch.maxCompReach = 0 := ne_of_gt h2
    simp [Opt.calculateStatus, h1, h2, h3, h4, h5]
  · rintro ⟨h1, h2, h3, h3'⟩
    have h4 : ¬ ch.brandAReach = 0 := ne_of_gt h1
    have h5 : ¬ ch.maxCompReach = 0 := ne_of_gt h2
    have h6 : ¬ (150 : ℚ) ≤ ch.indexVsCompetition := not_le.mpr h3'
    simp [Opt.calculateStatus, h1, h2, h3, h4, h5, h6]
  · rintro ⟨h1, h2, h3, h3'⟩
    have h4 : ¬ ch.brandAReach = 0 := ne_of_gt h1
    have h5 : ¬ ch.maxCompReach = 0 := ne_of_gt h2
    have h6 : ¬ (150 : ℚ) ≤ ch.indexVsCompetition := by
      intro h; linarith
    have h7 : ¬ (100 : ℚ) ≤ ch.indexVsCompetition := not_le.mpr h3'
    simp [Opt.calculateStatus, h1, h2, h3, h4, h5, h6, h7]
  · rintro ⟨h1, h2, h3, h3'⟩
    have h4 : ¬ ch.brandAReach = 0 := ne_of_gt h1
    have h5 : ¬ ch.maxCompReach = 0 := ne_of_gt h2
    have h6 : ¬ (150 : ℚ) ≤ ch.indexVsCompetition := by
      intro h; linarith
    have h7 : ¬ (100 : ℚ) ≤ ch.indexVsCompetition := by
      intro h; linarith
    have h8 : ¬ (80 : ℚ) ≤ ch.indexVsCompetition := not_le.mpr h3'
    simp [Opt.calculateStatus, h1, h2, h3, h4, h5, h6, h7, h8]
  · rintro ⟨h1, h2, h3⟩
    have h4 : ¬ ch.brandAReach = 0 := ne_of_gt h1
    have h5 : ¬ ch.maxCompReach = 0 := ne_of_gt h2
    have h6 : ¬ (150 : ℚ) ≤ ch.indexVsCompetition := by
      intro h; linarith
    have h7 : ¬ (100 : ℚ) ≤ ch.indexVsCompetition := by
      intro h; linarith
    have h8 : ¬ (80 : ℚ) ≤ ch.indexVsCompetition := by
      intro h; linarith
    have h9 : ¬ (50 : ℚ) ≤ ch.indexVsCompetition := not_le.mpr h3
    simp [Opt.calculateStatus, h1, h2, h4, h5, h6, h7, h8, h9]
  · unfold Opt.calculateStatus Opt.statusLabels
    split_ifs <;> simp

/-- Witness for C1 at a concrete record: an OPPORTUNITY channel. -/
theorem calculateStatus_ladder_witness :
    Opt.calculateStatus
      { channel := "CH", genre := "GEC", brandAReach := 0, maxCompReach := 3,
        gap := -3, channelShare := 2, indexVsBaseline := 0, indexVsCompetition := 0 }
      = "OPPORTUNITY" :=
  (calculateStatus_ladder_and_total _).2.1 ⟨rfl, by norm_num, by norm_num⟩

namespace Opt

/-- Descending stable sort by `brandAReach` (the JS comparator
`(a, b) => b.brandAReach - a.brandAReach` on a stable `Array.sort`). -/
def sortByReachDesc (l : List ChannelRecord) : List ChannelRecord :=
  l.mergeSort (fun a b => decide (b.brandAReach ≤ a.brandAReach))

/-- JS `Array.slice(0, e)`: a negative end counts from the end of the array. -/
def jsSlice {α : Type} (l : List α) (e : ℤ) : List α :=
  if e < 0 then l.take (l.length + e).toNat else l.take e.toNat

/-- `getProtectedChannels`: names of the top `ceil(N * threshold/100)` channels
with positive brand-A reach, sorted descending by reach. -/
def getProtectedChannels (channels : List ChannelRecord) (threshold : ℚ) : List String :=
  let sorted := sortByReachDesc (channels.filter (fun ch => decide (0 < ch.brandAReach)))
  let cutoff : ℤ := ⌈(sorted.length : ℚ) * (threshold / 100)⌉
  (jsSlice sorted cutoff).map (fun ch => ch.channel)

/-- Intensity-derived gap threshold of `runOptimization`. -/
def gapThresholdOf (intensity : ℚ) : ℚ :=
  if intensity ≤ 10 then -3 else if intensity ≤ 20 then -2 else -1

/-- Intensity-derived index threshold of `runOptimization`. -/
def indexThresholdOf (intensity : ℚ) : ℚ :=
  if intensity ≤ 10 then 70 else if intensity ≤ 20 then 80 else 90

/-- Priority of an ADD recommendation, from the competitor reach. -/
def addPriority (maxCompReach : ℚ) : String :=
  if 5 < maxCompReach then "HIGH" else if 3 < maxCompReach then "MEDIUM" else "LOW"

/-- Priority of an INCREASE recommendation, from the gap. -/
def increasePriority (gap : ℚ) : String :=
  if gap < -5 then "HIGH" else if gap < -2 then "MEDIUM" else "LOW"

/-- Body of the `runOptimization` loop for one channel: the result it stores
for the channel, or `none` when the loop stores nothing (inactive skip or
the no-op default). -/
def processChannel (gapThreshold indexThreshold : ℚ) (protectedChannels : List String)
    (ch : ChannelRecord) : Option OptimizationResult :=
  if ch.brandAReach = 0 ∧ ch.maxCompReach = 0 then none
  else if ch.brandAReach = 0 ∧ 2 ≤ ch.maxCompReach ∧ 1 ≤ ch.channelShare then
    some { channel := ch.channel, recommendation := "ADD",
           priority := addPriority ch.maxCompReach }
  else if 0 < ch.brandAReach ∧ ch.gap < gapThreshold ∧
      ch.indexVsCompetition < indexThreshold then
    some { channel := ch.channel, recommendation := "INCREASE",
           priority := increasePriority ch.gap }
  else if ch.channel ∈ protectedChannels ∨ 100 ≤ ch.indexVsCompetition then
    some { channel := ch.channel, recommendation := "MAINTAIN", priority := "LOW" }
  else if ch.channel ∉ protectedChannels ∧ 0 < ch.brandAReach ∧
      ch.brandAReach < 1.5 ∧ 120 < ch.indexVsCompetition then
    some { channel := ch.channel, recommendation := "DECREASE", priority := "LOW" }
  else if 0 < ch.brandAReach then
    some { channel := ch.channel, recommendation := "MAINTAIN", priority := "LOW" }
  else none

/-- One iteration of the `runOptimization` loop acting on the results map. -/
def optStep (gapThreshold indexThreshold : ℚ) (protectedChannels : List String)
    (results : List (String × OptimizationResult)) (ch : ChannelRecord) :
    List (String × OptimizationResult) :=
  match processChannel gapThreshold indexThreshold protectedChannels ch with
  | some r => mapSet results ch.channel r
  | none => results

/-- `runOptimization`: per-channel recommendations keyed by channel name. -/
def runOptimization (channels : List ChannelRecord) (intensity threshold : ℚ) :
    List (String × OptimizationResult) :=
  channels.foldl
    (optStep (gapThresholdOf intensity) (indexThresholdOf intensity)
      (getProtectedChannels channels threshold)) []

end Opt

theorem take_subset_take {α : Type} (l : List α) {m n : ℕ} (h : m ≤ n) :
    l.take m ⊆ l.take n := by
  intro x hx
  have heq : l.take m = (l.take n).take m := by
    rw [List.take_take, min_eq_left h]
  rw [heq] at hx
  exact List.take_subset _ _ hx

/-- C5: `getProtectedChannels` returns the names of the top
`ceil(N * threshold/100)` channels among those with positive brand-A reach in
descending reach order (a prefix of that sorted order); hence for
`0 ≤ t1 ≤ t2` the protected set at `t1` is a subset of the one at `t2`. -/
theorem getProtectedChannels_prefix_monotone
    (channels : List Opt.ChannelRecord) (t t1 t2 : ℚ) :
    (0 ≤ t → Opt.getProtectedChannels channels t =
      ((Opt.sortByReachDesc (channels.filter (fun ch => decide (0 < ch.brandAReach)))).take
        (⌈((channels.filter (fun ch => decide (0 < ch.brandAReach))).length : ℚ) *
          (t / 100)⌉.toNat)).map (fun ch => ch.channel))
    ∧ (0 ≤ t1 → t1 ≤ t2 →
      Opt.getProtectedChannels channels t1 ⊆ Opt.getProtectedChannels channels t2) := by
  have hlen : ∀ (l : List Opt.ChannelRecord),
      (Opt.sortByReachDesc l).length = l.length := by
    intro l
    simp [Opt.sortByReachDesc, List.length_mergeSort]
  have hcutoff : ∀ (l : List Opt.ChannelRecord) (s : ℚ), 0 ≤ s →
      (0 : ℤ) ≤ ⌈((Opt.sortByReachDesc l).length : ℚ) * (s / 100)⌉ := by
    intro l s hs
    apply Int.ceil_nonneg
    apply mul_nonneg (by positivity)
    positivity
  constructor
  · intro ht
    simp only [Opt.getProtectedChannels, Opt.jsSlice]
    rw [if_neg (not_lt.mpr (hcutoff _ t ht)), hlen]
  · intro h1 h2
    have h2' : 0 ≤ t2 := le_trans h1 h2
    simp only [Opt.getProtectedChannels, Opt.jsSlice]
    rw [if_neg (not_lt.mpr (hcutoff _ t1 h1)), if_neg (not_lt.mpr (hcutoff _ t2 h2'))]
    apply List.map_subset
    apply take_subset_take
    apply Int.toNat_le_toNat
    apply Int.ceil_le_ceil
    apply mul_le_mul_of_nonneg_left _ (by positivity)
    apply div_le_div_of_nonneg_right h2 (by norm_num)

/-- A concrete optimizer channel record with the fields the engine reads. -/
def optCh (name : String) (reach maxComp g share idx : ℚ) : Opt.ChannelRecord :=
  { channel := name, genre := "GEC", brandAReach := reach, maxCompReach := maxComp,
    gap := g, channelShare := share, indexVsBaseline := 0, indexVsCompetition := idx }

/-- Witness for C5: on a concrete two-channel list the protected set at
threshold 50 is contained in the protected set at threshold 100. -/
theorem getProtectedChannels_prefix_monotone_witness :
    Opt.getProtectedChannels [optCh "A" 5 0 5 2 0, optCh "B" 3 0 3 1 0] 50 ⊆
      Opt.getProtectedChannels [optCh "A" 5 0 5 2 0, optCh "B" 3 0 3 1 0] 100 :=
  (getProtectedChannels_prefix_monotone _ 50 50 100).2 (by norm_num) (by norm_num)

theorem processChannel_ne_decrease (gt it : ℚ) (pc : List String)
    (ch : Opt.ChannelRecord) (r : Opt.OptimizationResult)
    (h : Opt.processChannel gt it pc ch = some r) :
    r.recommendation ≠ "DECREASE" := by
  unfold Opt.processChannel at h
  split_ifs at h with h1 h2 h3 h4 h5 h6
  · obtain rfl := Option.some.inj h; simp
  · obtain rfl := Option.some.inj h; simp
  · obtain rfl := Option.some.inj h; simp
  · exfalso
    push_neg at h4
    linarith [h4.2, h5.2.2.2]
  · obtain rfl := Option.some.inj h; simp

theorem mapGet_foldl_optStep_notin {gt it : ℚ} {pc : List String}
    (channels : List Opt.ChannelRecord) (acc : List (String × Opt.OptimizationResult))
    (k : String) (h : ∀ ch ∈ channels, ch.channel ≠ k) :
    mapGet (channels.foldl (Opt.optStep gt it pc) acc) k = mapGet acc k := by
  induction channels generalizing acc with
  | nil => rfl
  | cons c rest ih =>
    rw [List.foldl_cons, ih _ (fun ch hm => h ch (List.mem_cons_of_mem c hm))]
    unfold Opt.optStep
    cases hc : Opt.processChannel gt it pc c with
    | none => rfl
    | some r =>
      exact mapGet_mapSet_ne acc c.channel k r (Ne.symm (h c (List.mem_cons_self c rest)))

theorem mapGet_foldl_optStep_inv {gt it : ℚ} {pc : List String}
    (P : Opt.OptimizationResult → Prop)
    (hP : ∀ ch r, Opt.processChannel gt it pc ch = some r → P r)
    (channels : List Opt.ChannelRecord) (acc : List (String × Opt.OptimizationResult))
    (hacc : ∀ k r, mapGet acc k = some r → P r) :
    ∀ k r, mapGet (channels.foldl (Opt.optStep gt it pc) acc) k = some r → P r := by
  induction channels generalizing acc with
  | nil => exact hacc
  | cons c rest ih =>
    intro k r hkr
    rw [List.foldl_cons] at hkr
    refine ih _ ?_ k r hkr
    intro k' r' hkr'
    unfold Opt.optStep at hkr'
    rcases hc : Opt.processChannel gt it pc c with _ | v
    · rw [hc] at hkr'
      exact hacc k' r' hkr'
    · rw [hc] at hkr'
      by_cases hk : k' = c.channel
      · subst hk
        rw [mapGet_mapSet_self] at hkr'
        obtain rfl := Option.some.inj hkr'
        exact hP c _ hc
      · rw [mapGet_mapSet_ne _ _ _ _ hk] at hkr'
        exact hacc k' r' hkr'

/-- C2: the optimizer never emits a DECREASE recommendation — the MAINTAIN
rule (protected or index at least 100) always fires before the DECREASE rule,
whose guard needs an index above 120. -/
theorem runOptimization_no_decrease (channels : List Opt.ChannelRecord)
    (intensity threshold : ℚ) (k : String) (r : Opt.OptimizationResult)
    (h : mapGet (Opt.runOptimization channels intensity threshold) k = some r) :
    r.recommendation ≠ "DECREASE" := by
  unfold Opt.runOptimization at h
  exact mapGet_foldl_optStep_inv (fun x => x.recommendation ≠ "DECREASE")
    (fun ch rr hc => processChannel_ne_decrease _ _ _ ch rr hc) channels []
    (fun k' rr h' => by simp [mapGet] at h') k r h

/-- Witness for C2 at a concrete run: the stored result for channel X. -/
theorem runOptimization_no_decrease_witness :
    ({ channel := "X", recommendation := "ADD", priority := "LOW" } :
      Opt.OptimizationResult).recommendation ≠ "DECREASE" :=
  runOptimization_no_decrease [optCh "X" 0 3 (-3) 2 0] 15 70 "X"
    { channel := "X", recommendation := "ADD", priority := "LOW" } (by decide)

theorem mapGet_foldl_optStep_mem {gt it : ℚ} {pc : List String}
    (channels : List Opt.ChannelRecord) (acc : List (String × Opt.OptimizationResult))
    (ch : Opt.ChannelRecord) (r : Opt.OptimizationResult)
    (hnd : (channels.map (fun c => c.channel)).Nodup) (hmem : ch ∈ channels)
    (hp : Opt.processChannel gt it pc ch = some r) :
    mapGet (channels.foldl (Opt.optStep gt it pc) acc) ch.channel = some r := by
  induction channels generalizing acc with
  | nil => cases hmem
  | cons c rest ih =>
    simp only [List.map_cons, List.nodup_cons] at hnd
    rw [List.foldl_cons]
    rcases List.mem_cons.mp hmem with rfl | hm
    · have hnot : ∀ c' ∈ rest, c'.channel ≠ ch.channel := by
        intro c' hc' heq
        exact hnd.1 (heq ▸ List.mem_map_of_mem (fun c => c.channel) hc')
      rw [mapGet_foldl_optStep_notin rest _ _ hnot]
      unfold Opt.optStep
      rw [hp]
      exact mapGet_mapSet_self acc ch.channel r
    · exact ih _ hnd.2 hm

/-- C3: in `runOptimization` a channel with zero brand-A reach, competitor
reach at least 2.0 and channel share at least 1.0 receives recommendation ADD
with priority HIGH when the competitor reach exceeds 5, MEDIUM when it
exceeds 3, and LOW otherwise; such a channel is classified OPPORTUNITY by
`calculateStatus`. -/
theorem runOptimization_add_rule (channels : List Opt.ChannelRecord)
    (intensity threshold : ℚ) (ch : Opt.ChannelRecord)
    (hnd : (channels.map (fun c => c.channel)).Nodup) (hmem : ch ∈ channels)
    (h0 : ch.brandAReach = 0) (h2 : 2 ≤ ch.maxCompReach) (h1 : 1 ≤ ch.channelShare) :
    mapGet (Opt.runOptimization channels intensity threshold) ch.channel =
      some { channel := ch.channel, recommendation := "ADD",
             priority := Opt.addPriority ch.maxCompReach }
    ∧ (∀ x : ℚ, Opt.addPriority x =
        if 5 < x then "HIGH" else if 3 < x then "MEDIUM" else "LOW")
    ∧ Opt.calculateStatus ch = "OPPORTUNITY" := by
  refine ⟨?_, fun x => rfl, ?_⟩
  · unfold Opt.runOptimization
    refine mapGet_foldl_optStep_mem channels [] ch _ hnd hmem ?_
    unfold Opt.processChannel
    rw [if_neg, if_pos ⟨h0, h2, h1⟩]
    rintro ⟨-, hb⟩
    rw [hb] at h2
    linarith
  · have h4 : ¬ ch.maxCompReach = 0 := by
      intro hh; rw [hh] at h2; linarith
    simp [Opt.calculateStatus, h0, h2, h1, h4]

/-- Witness for C3: the spec scenario — brand-A reach 0, competitor reach
3.0, share 2.0 — is classified OPPORTUNITY and receives ADD (priority LOW,
since 3.0 does not exceed 3). -/
theorem runOptimization_add_rule_witness :
    mapGet (Opt.runOptimization [optCh "X" 0 3 (-3) 2 0] 15 70) "X" =
      some { channel := "X", recommendation := "ADD", priority := "LOW" }
    ∧ Opt.calculateStatus (optCh "X" 0 3 (-3) 2 0) = "OPPORTUNITY" := by
  have h := runOptimization_add_rule [optCh "X" 0 3 (-3) 2 0] 15 70
    (optCh "X" 0 3 (-3) 2 0) (by simp) (by simp) rfl (by norm_num [optCh]) (by norm_num [optCh])
  refine ⟨?_, h.2.2⟩
  rw [show (optCh "X" 0 3 (-3) 2 0).channel = "X" from rfl] at h
  rw [h.1]
  decide

/-- C4: `runOptimization` derives `gapThreshold` (-3 / -2 / -1 as intensity
is ≤10 / ≤20 / larger) and `indexThreshold` (70 / 80 / 90 likewise); a
channel with positive brand-A reach, gap below the gap threshold and index
below the index threshold receives INCREASE, with priority HIGH when the gap
is below -5, MEDIUM below -2, LOW otherwise. -/
theorem runOptimization_increase_rule :
    (∀ i : ℚ, Opt.gapThresholdOf i = if i ≤ 10 then -3 else if i ≤ 20 then -2 else -1)
    ∧ (∀ i : ℚ, Opt.indexThresholdOf i = if i ≤ 10 then 70 else if i ≤ 20 then 80 else 90)
    ∧ (∀ g : ℚ, Opt.increasePriority g =
        if g < -5 then "HIGH" else if g < -2 then "MEDIUM" else "LOW")
    ∧ ∀ (channels : List Opt.ChannelRecord) (intensity threshold : ℚ)
        (ch : Opt.ChannelRecord),
        (channels.map (fun c => c.channel)).Nodup → ch ∈ channels →
        0 < ch.brandAReach → ch.gap < Opt.gapThresholdOf intensity →
        ch.indexVsCompetition < Opt.indexThresholdOf intensity →
        mapGet (Opt.runOptimization channels intensity threshold) ch.channel =
          some { channel := ch.channel, recommendation := "INCREASE",
                 priority := Opt.increasePriority ch.gap } := by
  refine ⟨fun i => rfl, fun i => rfl, fun g => rfl, ?_⟩
  intro channels intensity threshold ch hnd hmem hb hg hi
  unfold Opt.runOptimization
  refine mapGet_foldl_optStep_mem channels [] ch _ hnd hmem ?_
  unfold Opt.processChannel
  have hb' : ¬ ch.brandAReach = 0 := ne_of_gt hb
  rw [if_neg, if_neg, if_pos ⟨hb, hg, hi⟩]
  · rintro ⟨ha, -⟩
    exact hb' ha
  · rintro ⟨ha, -⟩
    exact hb' ha

/-- Witness for C4: the spec scenario — reach 5.0, gap -6.0, index 60 under
intensity 15 and threshold 70 — receives INCREASE with priority HIGH. -/
theorem runOptimization_increase_rule_witness :
    mapGet (Opt.runOptimization [optCh "Y" 5 11 (-6) 0 60] 15 70) "Y" =
      some { channel := "Y", recommendation := "INCREASE", priority := "HIGH" } := by
  have h := runOptimization_increase_rule.2.2.2 [optCh "Y" 5 11 (-6) 0 60] 15 70
    (optCh "Y" 5 11 (-6) 0 60) (by simp) (by simp) (by norm_num [optCh])
    (by norm_num [optCh, Opt.gapThresholdOf]) (by norm_num [optCh, Opt.indexThresholdOf])
  rw [show (optCh "Y" 5 11 (-6) 0 60).channel = "Y" from rfl] at h
  rw [h]
  decide

namespace Types

/-- Timeband metrics for one daypart window (`TimebandMetrics` in the shared
types module); market-specific competitor fields are optional. -/
structure TimebandMetrics where
  timeband : String
  brandAReach : ℚ
  brandAShare : ℚ
  brandAOTS : ℚ
  brandDReach : Option ℚ := none
  brandEReach : Option ℚ := none
  luxReach : Option ℚ := none
  brandBReach : Option ℚ := none
  brandCReach : Option ℚ := none
  maxCompReach : ℚ
  gap : ℚ
  atcIndex : Option ℚ := none
  isPrimetime : Bool
  daypartCategory : String
deriving Repr, DecidableEq

/-- The channel record of the shared types module, with optional timeband
breakdown and computed aggregates. -/
structure ChannelRecord where
  channel : String
  genre : String
  brandAReach : ℚ
  maxCompReach : ℚ
  gap : ℚ
  channelShare : ℚ
  indexVsBaseline : ℚ
  indexVsCompetition : ℚ
  brandDReach : Option ℚ := none
  brandEReach : Option ℚ := none
  luxReach : Option ℚ := none
  brandBReach : Option ℚ := none
  brandCReach : Option ℚ := none
  atcIndex : Option ℚ := none
  timebands : Option (List TimebandMetrics) := none
  primetimeReach : Option ℚ := none
  nonPrimetimeReach : Option ℚ := none
  peakTimeband : Option String := none
  opportunityTimeband : Option String := none
deriving Repr, DecidableEq

/-- A district demographics record (`DistrictRecord`). -/
structure DistrictRecord where
  ser : String
  scrKey : String
  district : String
  syncPop : ℚ
  censusPop : ℚ
  urbanPct : ℚ
  literacyPct : ℚ
  tvOwnershipPct : ℚ
  mobilePct : ℚ
  electrificationPct : ℚ
  internetPct : ℚ
  cdmiScore : ℚ
  allocPctInSer : ℚ
  reachOverall : ℚ
  reachUrban : ℚ
  reachRural : ℚ
  targetPop : ℚ
  reachedPop : ℚ
  confidence : String
deriving Repr, DecidableEq

end Types

namespace TBP

/-- The four daypart labels, in order (`TIMEBAND_LABELS`). -/
def TIMEBAND_LABELS : List String := ["NPT", "NCPT_EARLY", "CPT", "NCPT_LATE"]

/-- `isPrime` and `category` of `DAYPART_CATEGORIES_V2` for each label. -/
def daypartInfo (tb : String) : Bool × String :=
  if tb = "NPT" then (false, "non-prime")
  else if tb = "NCPT_EARLY" then (true, "non-core-prime")
  else if tb = "CPT" then (true, "core-prime")
  else if tb = "NCPT_LATE" then (true, "non-core-prime")
  else (false, "")

/-- `ATC_DAYPART_FACTORS_V2` lookup with the `|| 1.0` fallback of its caller. -/
def atcDaypartFactor (tb : String) : ℚ :=
  if tb = "NPT" then 0.7
  else if tb = "NCPT_EARLY" then 1.2
  else if tb = "CPT" then 1.5
  else if tb = "NCPT_LATE" then 1.1
  else 1

/-- `calculateTimebandATCIndex`: reach times daypart factor times 100. -/
def calculateTimebandATCIndex (reach : ℚ) (tb : String) : ℚ :=
  reach * atcDaypartFactor tb * 100

/-- First pass of `normalizeTimebandString`: the global regex replacement of
`:dd:dd` by `:00`, scanning left to right without overlap. -/
def replaceTimeParts : List Char → List Char
  | ':' :: a :: b :: ':' :: c :: d :: rest =>
    if a.isDigit && b.isDigit && c.isDigit && d.isDigit then
      ':' :: '0' :: '0' :: replaceTimeParts rest
    else ':' :: replaceTimeParts (a :: b :: ':' :: c :: d :: rest)
  | ch :: rest => ch :: replaceTimeParts rest
  | [] => []

/-- Second pass of `normalizeTimebandString`: the global replacement of a
whitespace-dash-whitespace run by a bare dash. The flag records that the scan
is inside the whitespace run consumed after an emitted dash; `pend` is the
pending whitespace run not yet known to precede a dash. -/
def replaceDashAux : Bool → List Char → List Char → List Char
  | _, pend, [] => pend
  | afterDash, pend, ch :: rest =>
    if ch = '-' then '-' :: replaceDashAux true [] rest
    else if ch.isWhitespace then
      if afterDash then replaceDashAux true [] rest
      else replaceDashAux false (pend ++ [ch]) rest
    else pend ++ ch :: replaceDashAux false [] rest

/-- Third pass of `normalizeTimebandString`: the global removal of `:00`. -/
def removeColon00 : List Char → List Char
  | ':' :: '0' :: '0' :: rest => removeColon00 rest
  | ch :: rest => ch :: removeColon00 rest
  | [] => []

/-- `normalizeTimebandString`: remove seconds, tighten dashes, drop `:00`. -/
def normalizeTimebandString (s : String) : String :=
  String.mk (removeColon00 (replaceDashAux false [] (replaceTimeParts s.data)))

end TBP

namespace TBP

/-- One raw CSV-like row consumed by `parseTimebandData`; a missing or falsy
`Channel`/`TimeBand` is the empty string, and `Value` is `none` for the
literal `n.a` or `null` (both of which the source coerces to 0). -/
structure RawRow where
  Channel : String
  TimeBand : String
  Metric : String
  Target_Group : String
  Value : Option ℚ
deriving Repr, DecidableEq

/-- Per-(channel, timeband) accumulator of `parseTimebandData`'s grouping
phase: month-wise lists of values. -/
structure TBAccum where
  reach : List ℚ
  share : List ℚ
  ots : List ℚ
  competitors : List (String × List ℚ)
deriving Repr, DecidableEq

/-- Processing of a single row in `parseTimebandData`'s grouping loop. -/
def applyRow (m : List (String × List (String × TBAccum))) (row : RawRow) :
    List (String × List (String × TBAccum)) :=
  if row.Channel = "" ∨ row.TimeBand = "" then m
  else
    let timeband := normalizeTimebandString row.TimeBand
    let tbmap := (mapGet m row.Channel).getD []
    let data := (mapGet tbmap timeband).getD ⟨[], [], [], []⟩
    let value := row.Value.getD 0
    let data2 :=
      if row.Metric = "Cume Rch% Curve [1+]" then
        if row.Target_Group = "Brand A" then { data with reach := data.reach ++ [value] }
        else
          let prev := (mapGet data.competitors row.Target_Group).getD []
          { data with competitors := mapSet data.competitors row.Target_Group (prev ++ [value]) }
      else if row.Metric = "rat%" then { data with share := data.share ++ [value] }
      else if row.Metric = "Ots" then { data with ots := data.ots ++ [value] }
      else data
    mapSet m row.Channel (mapSet tbmap timeband data2)

/-- The grouping phase of `parseTimebandData`. -/
def groupRows (rows : List RawRow) : List (String × List (String × TBAccum)) :=
  rows.foldl applyRow []

/-- Per-competitor average reach across months. -/
def competitorAveragesOf (data : TBAccum) : List (String × ℚ) :=
  data.competitors.map (fun p =>
    (p.1, if 0 < p.2.length then p.2.sum / (p.2.length : ℚ) else 0))

/-- Conversion of one accumulated (channel, timeband) entry into a
`TimebandMetrics` (the body of `parseTimebandData`'s second loop). -/
def mkTimebandMetrics (market timeband : String) (data : TBAccum) :
    Types.TimebandMetrics :=
  let brandAReach :=
    if 0 < data.reach.length then data.reach.sum / (data.reach.length : ℚ) else 0
  let brandAShare :=
    if 0 < data.share.length then data.share.sum / (data.share.length : ℚ) else 0
  let brandAOTS :=
    if 0 < data.ots.length then data.ots.sum / (data.ots.length : ℚ) else 0
  let competitorReaches := competitorAveragesOf data
  let maxCompReach := (competitorReaches.map (fun p => p.2)).foldl max 0
  let gap := brandAReach - maxCompReach
  let info := daypartInfo timeband
  if market = "Karnataka" then
    { timeband := timeband, brandAReach := brandAReach, brandAShare := brandAShare,
      brandAOTS := brandAOTS, maxCompReach := maxCompReach, gap := gap,
      isPrimetime := info.1, daypartCategory := info.2,
      brandBReach := some ((mapGet competitorReaches "Brand B").getD 0),
      brandCReach := some ((mapGet competitorReaches "Brand C").getD 0),
      atcIndex := some (calculateTimebandATCIndex brandAReach timeband) }
  else
    { timeband := timeband, brandAReach := brandAReach, brandAShare := brandAShare,
      brandAOTS := brandAOTS, maxCompReach := maxCompReach, gap := gap,
      isPrimetime := info.1, daypartCategory := info.2,
      brandDReach := some ((mapGet competitorReaches "Brand D").getD 0),
      brandEReach := some ((mapGet competitorReaches "Brand E").getD 0) }

/-- `createEmptyTimeband`: the all-zero entry for a missing timeband. -/
def createEmptyTimeband (timeband market : String) : Types.TimebandMetrics :=
  let info := daypartInfo timeband
  if market = "Karnataka" then
    { timeband := timeband, brandAReach := 0, brandAShare := 0, brandAOTS := 0,
      maxCompReach := 0, gap := 0, isPrimetime := info.1, daypartCategory := info.2,
      brandBReach := some 0, brandCReach := some 0, atcIndex := some 0 }
  else
    { timeband := timeband, brandAReach := 0, brandAShare := 0, brandAOTS := 0,
      maxCompReach := 0, gap := 0, isPrimetime := info.1, daypartCategory := info.2,
      brandDReach := some 0, brandEReach := some 0 }

/-- `parseTimebandData`: group raw rows by channel and normalized timeband,
then emit the four ordered timeband entries per channel. -/
def parseTimebandData (rawData : List RawRow) (market : String) :
    List (String × List Types.TimebandMetrics) :=
  (groupRows rawData).map (fun p =>
    (p.1, TIMEBAND_LABELS.map (fun tb =>
      match mapGet p.2 tb with
      | none => createEmptyTimeband tb market
      | some data => mkTimebandMetrics market tb data)))

/-- A reach/competitor distribution over the four timebands. -/
structure TBDist where
  npt : ℚ
  ncptEarly : ℚ
  cpt : ℚ
  ncptLate : ℚ
deriving Repr, DecidableEq

/-- Value of a distribution object at a timeband key. -/
def distGet (d : TBDist) (tb : String) : ℚ :=
  if tb = "NPT" then d.npt
  else if tb = "NCPT_EARLY" then d.ncptEarly
  else if tb = "CPT" then d.cpt
  else if tb = "NCPT_LATE" then d.ncptLate
  else 0

/-- `getChannelDistribution`: gap-dependent reach and competitor
distributions, with a genre variation from the channel-name length. -/
def getChannelDistribution (channel : Types.ChannelRecord) : TBDist × TBDist :=
  let genreVariation : ℚ := ((channel.channel.length % 10 : ℕ) : ℚ) / 100
  if channel.gap < -8 then
    (⟨0.18 + genreVariation, 0.07, 0.60 - genreVariation, 0.15⟩,
     ⟨0.20, 0.09, 0.58, 0.13⟩)
  else if channel.gap < -5 then
    (⟨0.22 + genreVariation, 0.09, 0.54 - genreVariation, 0.15⟩,
     ⟨0.24, 0.10, 0.53, 0.13⟩)
  else if channel.gap < -2 then
    (⟨0.28 + genreVariation, 0.11, 0.46 - genreVariation, 0.15⟩,
     ⟨0.27, 0.12, 0.48, 0.13⟩)
  else if channel.gap < 2 then
    (⟨0.33 + genreVariation, 0.12, 0.40 - genreVariation, 0.15⟩,
     ⟨0.32, 0.12, 0.43, 0.13⟩)
  else if channel.gap < 5 then
    (⟨0.40 + genreVariation, 0.14, 0.32 - genreVariation, 0.14⟩,
     ⟨0.36, 0.12, 0.40, 0.12⟩)
  else if channel.gap < 8 then
    (⟨0.48 + genreVariation, 0.16, 0.24 - genreVariation, 0.12⟩,
     ⟨0.40, 0.13, 0.36, 0.11⟩)
  else
    (⟨0.55 + genreVariation, 0.18, 0.15 - genreVariation, 0.12⟩,
     ⟨0.44, 0.14, 0.32, 0.10⟩)

/-- `generateSampleTimebandData`: synthetic per-timeband metrics scaled by
the channel's distribution. -/
def generateSampleTimebandData (channel : Types.ChannelRecord) (market : String) :
    List Types.TimebandMetrics :=
  let dists := getChannelDistribution channel
  TIMEBAND_LABELS.map (fun tb =>
    let info := daypartInfo tb
    let reachMultiplier := distGet dists.1 tb
    let brandAReach := channel.brandAReach * reachMultiplier
    let compReachMultiplier := distGet dists.2 tb
    let maxCompReach := channel.maxCompReach * compReachMultiplier
    let gap := brandAReach - maxCompReach
    if market = "Karnataka" then
      { timeband := tb, brandAReach := brandAReach,
        brandAShare := channel.channelShare * reachMultiplier,
        brandAOTS := brandAReach * 0.5, maxCompReach := maxCompReach, gap := gap,
        isPrimetime := info.1, daypartCategory := info.2,
        brandBReach := some ((channel.brandBReach.getD 0) * compReachMultiplier),
        brandCReach := some ((channel.brandCReach.getD 0) * compReachMultiplier),
        atcIndex := some (calculateTimebandATCIndex brandAReach tb) }
    else
      { timeband := tb, brandAReach := brandAReach,
        brandAShare := channel.channelShare * reachMultiplier,
        brandAOTS := brandAReach * 0.5, maxCompReach := maxCompReach, gap := gap,
        isPrimetime := info.1, daypartCategory := info.2,
        brandDReach := some ((channel.brandDReach.getD 0) * compReachMultiplier),
        brandEReach := some ((channel.brandEReach.getD 0) * compReachMultiplier) })

end TBP

namespace CLF

/-- JS `ToInt32`: reduce an integer into the signed 32-bit range. -/
def toInt32 (n : ℤ) : ℤ := (n + 2 ^ 31) % 2 ^ 32 - 2 ^ 31

/-- `simpleHash`: the `hash = (hash << 5) - hash + charCode; hash &= hash`
loop over the characters, then `Math.abs`. -/
def simpleHash (s : String) : ℤ :=
  |s.data.foldl (fun hash c => toInt32 (toInt32 (hash * 32) - hash + (c.toNat : ℤ))) 0|

/-- `getChannelJitter`: deterministic seeded jitter scaled by channel size. -/
def getChannelJitter (districtName channelName : String)
    (channelShare maxShareInSer : ℚ) (suffix : String) : ℚ :=
  let sizeStability := if 0 < maxShareInSer then channelShare / maxShareInSer else 0
  let varianceRange := (1 - sizeStability) * 0.08
  let seed := simpleHash (districtName ++ "_" ++ channelName ++ suffix) % 10000
  ((seed : ℚ) / 10000 - 0.5) * 2 * varianceRange

/-- The `GENRE_CATEGORY` table. -/
def GENRE_CATEGORY : List (String × String) :=
  [("News", "News"), ("Hindi News", "News"), ("English News", "English"),
   ("Business News", "English"), ("English Entertainment", "English"),
   ("English Movies", "English"), ("Devotional", "Devotional"),
   ("Bhojpuri", "Regional"), ("Punjabi", "Regional"), ("Regional", "Regional"),
   ("Kids", "Kids"), ("Hindi Movies", "Movies"), ("Movies", "Movies"),
   ("Hindi GEC", "GEC"), ("GEC", "GEC"), ("Entertainment", "GEC"),
   ("Comedy", "GEC"), ("Music", "Music"), ("Sports", "Sports"),
   ("Infotainment", "Infotainment"), ("Lifestyle", "Infotainment"),
   ("Reality", "GEC")]

/-- Genre category lookup with the `|| 'GEC'` fallback. -/
def genreCategoryOf (genre : String) : String :=
  (mapGet GENRE_CATEGORY genre).getD "GEC"

/-- `getGenreAffinity`: urban/rural genre affinity, clamped to [0.75, 1.35]. -/
def getGenreAffinity (genre : String) (urbanPct literacyPct : ℚ) : ℚ :=
  let category := genreCategoryOf genre
  let affinity :=
    if category = "News" then 1 + (urbanPct - 0.15) * 0.65
    else if category = "English" then 1 + (urbanPct - 0.15) * 0.75
    else if category = "Devotional" then 1 + (0.15 - urbanPct) * 0.50
    else if category = "Regional" then 1 + (0.15 - urbanPct) * 0.40
    else if category = "Kids" then
      1 + (urbanPct - 0.15) * 0.35 + (literacyPct - 0.60) * 0.15
    else if category = "Movies" then 1 + (urbanPct - 0.15) * 0.30
    else if category = "Music" then 1 + (urbanPct - 0.15) * 0.30
    else if category = "Sports" then 1 + (urbanPct - 0.15) * 0.40
    else if category = "Infotainment" then 1 + (urbanPct - 0.15) * 0.45
    else if urbanPct < 0.20 then 1 + (0.20 - urbanPct) * 0.70
    else 1
  max 0.75 (min 1.35 affinity)

/-- `getBaseCdmiFactor`: CDMI deviation from the SER average, clamped. -/
def getBaseCdmiFactor (district : Types.DistrictRecord)
    (serDistricts : List Types.DistrictRecord) : ℚ :=
  let serAvgCdmi :=
    (serDistricts.map (fun d => d.cdmiScore)).sum / (serDistricts.length : ℚ)
  let baseFactor := 1 + (district.cdmiScore - serAvgCdmi) * 0.6
  max 0.5 (min 1.5 baseFactor)

/-- `getTimebandUrbanShift`: per-timeband urban adjustment weight. -/
def getTimebandUrbanShift (timeband : String) (urbanPct : ℚ) : ℚ :=
  let urbanShift := (urbanPct - 0.15) * 0.15
  if timeband = "NPT" then 1 - urbanShift * 0.4
  else if timeband = "NCPT_EARLY" then 1 + urbanShift * 0.1
  else if timeband = "CPT" then 1
  else if timeband = "NCPT_LATE" then 1 + urbanShift * 0.5
  else 1

/-- Channel strength of `getChannelPresence`. -/
def channelStrengthOf (brandAReach maxReachInSer channelShare maxShareInSer : ℚ) : ℚ :=
  (if 0 < maxReachInSer then brandAReach / maxReachInSer else 0) * 0.7 +
  (if 0 < maxShareInSer then channelShare / maxShareInSer else 0) * 0.3

/-- District access of `getChannelPresence`. -/
def districtAccessOf (district : Types.DistrictRecord) : ℚ :=
  district.urbanPct * 0.35 + district.tvOwnershipPct * 0.30 +
  district.electrificationPct * 0.20 + district.internetPct * 0.15

/-- Presence score of `getChannelPresence`. -/
def presenceScoreOf (brandAReach maxReachInSer channelShare maxShareInSer : ℚ)
    (district : Types.DistrictRecord) : ℚ :=
  channelStrengthOf brandAReach maxReachInSer channelShare maxShareInSer * 0.55 +
  districtAccessOf district * 0.45

/-- Hash-varied presence threshold (0.18 plus or minus up to 0.04). -/
def presenceThresholdOf (districtName channelName : String) : ℚ :=
  let seed := simpleHash ("presence_" ++ districtName ++ "_" ++ channelName) % 10000
  0.18 + ((seed : ℚ) / 10000 - 0.5) * 0.08

/-- `getChannelPresence`: zero-reach channels are absent; otherwise compare
the presence score against the hash-varied threshold. -/
def getChannelPresence (districtName channelName : String)
    (brandAReach maxReachInSer channelShare maxShareInSer : ℚ)
    (district : Types.DistrictRecord) : Bool :=
  if brandAReach ≤ 0 then false
  else decide (presenceThresholdOf districtName channelName ≤
    presenceScoreOf brandAReach maxReachInSer channelShare maxShareInSer district)

/-- JS `+x.toFixed(2)`: round to 2 decimal places (ties toward the larger
value, as the ECMA `toFixed` picks the larger candidate). -/
def round2 (x : ℚ) : ℚ := (⌊x * 100 + 1 / 2⌋ : ℚ) / 100

/-- JS `+x.toFixed(1)`: round to 1 decimal place. -/
def round1 (x : ℚ) : ℚ := (⌊x * 10 + 1 / 2⌋ : ℚ) / 10

/-- `Math.max(...serChannels.map(c => c.channelShare), 0.01)`. -/
def maxShareInSerOf (serChannels : List Types.ChannelRecord) : ℚ :=
  (serChannels.map (fun c => c.channelShare)).foldl max 0.01

/-- `Math.max(...serChannels.map(c => c.brandAReach), 0.01)`. -/
def maxReachInSerOf (serChannels : List Types.ChannelRecord) : ℚ :=
  (serChannels.map (fun c => c.brandAReach)).foldl max 0.01

/-- The timeband zeroing applied in the absent branch of
`calculateDistrictChannels`. -/
def zeroTimeband (tb : Types.TimebandMetrics) : Types.TimebandMetrics :=
  { tb with
    brandAReach := 0
    brandAShare := 0
    brandAOTS := 0
    brandDReach := some 0
    luxReach := some 0
    maxCompReach := 0
    gap := 0 }

/-- One scaled timeband of the present branch of
`calculateDistrictChannels`. -/
def scaleTimeband (finalFactor compFactor1 compFactor2 normalizedAdjust : ℚ)
    (tb : Types.TimebandMetrics) : Types.TimebandMetrics :=
  let tbBrandA := round2 (tb.brandAReach * finalFactor * normalizedAdjust)
  let tbComp := round2 (tb.maxCompReach * compFactor1 * normalizedAdjust)
  let tbBrandD := tb.brandDReach.map (fun v => round2 (v * compFactor1 * normalizedAdjust))
  let tbLux := tb.luxReach.map (fun v => round2 (v * compFactor2 * normalizedAdjust))
  { tb with
    brandAReach := tbBrandA
    brandAShare := round2 (tb.brandAShare * finalFactor)
    brandAOTS := round2 (tb.brandAOTS * finalFactor)
    brandDReach := tbBrandD
    luxReach := tbLux
    maxCompReach := max (max (tbBrandD.getD 0) (tbLux.getD 0)) tbComp
    gap := round2 (tbBrandA - max (max (tbBrandD.getD 0) (tbLux.getD 0)) tbComp) }

/-- The body of the `calculateDistrictChannels` map for a single channel. -/
def districtChannelOf (baseFactor maxShareInSer maxReachInSer : ℚ)
    (district : Types.DistrictRecord) (ch : Types.ChannelRecord) :
    Types.ChannelRecord :=
  if getChannelPresence district.district ch.channel ch.brandAReach maxReachInSer
      ch.channelShare maxShareInSer district = false then
    { ch with
      brandAReach := 0
      brandDReach := some 0
      luxReach := some 0
      maxCompReach := 0
      gap := 0
      indexVsCompetition := 0
      indexVsBaseline := ch.indexVsBaseline
      timebands := ch.timebands.map (fun tbs => tbs.map zeroTimeband) }
  else
    let genreAffinity := getGenreAffinity ch.genre district.urbanPct district.literacyPct
    let jitter := getChannelJitter district.district ch.channel ch.channelShare maxShareInSer ""
    let finalFactor := max 0.4 (min 1.8 (baseFactor * genreAffinity * (1 + jitter)))
    let compJitter1 := getChannelJitter district.district ch.channel ch.channelShare maxShareInSer "_comp1"
    let compJitter2 := getChannelJitter district.district ch.channel ch.channelShare maxShareInSer "_comp2"
    let compFactor1 := max 0.4 (min 1.8 (baseFactor * genreAffinity * (1 + compJitter1)))
    let compFactor2 := max 0.4 (min 1.8 (baseFactor * genreAffinity * (1 + compJitter2)))
    let brandAReach := round2 (ch.brandAReach * finalFactor)
    let brandDReach := ch.brandDReach.map (fun v => round2 (v * compFactor1))
    let luxReach := ch.luxReach.map (fun v => round2 (v * compFactor2))
    let maxCompReach := max (brandDReach.getD 0) (luxReach.getD 0)
    let gap := round2 (brandAReach - maxCompReach)
    let indexVsCompetition :=
      if 0 < maxCompReach then round1 (brandAReach / maxCompReach * 100)
      else if 0 < brandAReach then 999 else 0
    let timebands := ch.timebands.map (fun tbs =>
      let totalWeight :=
        (tbs.map (fun tb => getTimebandUrbanShift tb.timeband district.urbanPct)).sum
      tbs.map (fun tb => scaleTimeband finalFactor compFactor1 compFactor2
        (getTimebandUrbanShift tb.timeband district.urbanPct / totalWeight *
          (tbs.length : ℚ)) tb))
    { ch with
      brandAReach := brandAReach
      brandDReach := brandDReach
      luxReach := luxReach
      maxCompReach := maxCompReach
      gap := gap
      indexVsCompetition := indexVsCompetition
      indexVsBaseline := ch.indexVsBaseline
      timebands := timebands }

/-- `calculateDistrictChannels`: scale SER-level channel records to one
district. -/
def calculateDistrictChannels (serChannels : List Types.ChannelRecord)
    (district : Types.DistrictRecord) (serDistricts : List Types.DistrictRecord) :
    List Types.ChannelRecord :=
  serChannels.map
    (districtChannelOf (getBaseCdmiFactor district serDistricts)
      (maxShareInSerOf serChannels) (maxReachInSerOf serChannels) district)

/-- Total brand-A reach over a timeband array. -/
def totalReachOf (timebands : List Types.TimebandMetrics) : ℚ :=
  (timebands.map (fun tb => tb.brandAReach)).sum

/-- Brand-A reach summed over the three prime bands. -/
def primeReachOf (timebands : List Types.TimebandMetrics) : ℚ :=
  ((timebands.filter (fun tb => decide (tb.timeband = "NCPT_EARLY" ∨
    tb.timeband = "CPT" ∨ tb.timeband = "NCPT_LATE"))).map
      (fun tb => tb.brandAReach)).sum

/-- `calculatePrimeTimeFocus`: share of total reach from the prime bands. -/
def calculatePrimeTimeFocus (timebands : List Types.TimebandMetrics) : ℚ :=
  if totalReachOf timebands = 0 then 0
  else primeReachOf timebands / totalReachOf timebands * 100

end CLF

namespace CGA

/-- A cross-geography comparison row (`CrossGeoTimebandComparison`); the
three market reaches are inlined as fields. -/
structure CrossGeoTimebandComparison where
  timeband : String
  UP : ℚ
  Maharashtra : ℚ
  Karnataka : ℚ
  bestPerformingMarket : String
  worstPerformingMarket : String
  variance : ℚ
deriving Repr, DecidableEq

/-- `calculateMarketConsistencyScore`: 100 when the three-market mean is 0,
otherwise `(1 - variance/avg) * 100` clamped to [0, 100]. -/
def calculateMarketConsistencyScore (comparison : CrossGeoTimebandComparison) : ℚ :=
  let avg := ([comparison.UP, comparison.Maharashtra, comparison.Karnataka].foldl
    (fun s v => s + v) 0) / 3
  if avg = 0 then 100
  else
    let cv := comparison.variance / avg
    max 0 (min 100 ((1 - cv) * 100))

end CGA

/-- C7: `getChannelJitter` and `simpleHash` are pure deterministic functions
of their arguments — two calls with identical district, channel, share,
maximum share and suffix return identical values, with no dependence on call
order or external state. -/
theorem getChannelJitter_deterministic
    (d1 d2 c1 c2 s1 s2 : String) (share1 share2 maxShare1 maxShare2 : ℚ)
    (hd : d1 = d2) (hc : c1 = c2) (hshare : share1 = share2)
    (hmax : maxShare1 = maxShare2) (hs : s1 = s2) :
    CLF.simpleHash (d1 ++ "_" ++ c1 ++ s1) = CLF.simpleHash (d2 ++ "_" ++ c2 ++ s2)
    ∧ CLF.getChannelJitter d1 c1 share1 maxShare1 s1 =
      CLF.getChannelJitter d2 c2 share2 maxShare2 s2 := by
  subst hd
  subst hc
  subst hshare
  subst hmax
  subst hs
  exact ⟨rfl, rfl⟩

/-- Witness for C7: two identical calls on concrete arguments agree. -/
theorem getChannelJitter_deterministic_witness :
    CLF.getChannelJitter "Lucknow" "B4U Movies" 2 5 "" =
      CLF.getChannelJitter "Lucknow" "B4U Movies" 2 5 "" :=
  (getChannelJitter_deterministic "Lucknow" "Lucknow" "B4U Movies" "B4U Movies"
    "" "" 2 2 5 5 rfl rfl rfl rfl rfl).2

/-- C9: `calculateMarketConsistencyScore` is total and returns 100 when the
three-market mean is 0, otherwise `max(0, min(100, (1 - variance/avg)*100))`;
in every case the result lies in [0, 100]. -/
theorem calculateMarketConsistencyScore_total_bounded
    (comparison : CGA.CrossGeoTimebandComparison) :
    ((comparison.UP + comparison.Maharashtra + comparison.Karnataka) / 3 = 0 →
      CGA.calculateMarketConsistencyScore comparison = 100)
    ∧ ((comparison.UP + comparison.Maharashtra + comparison.Karnataka) / 3 ≠ 0 →
      CGA.calculateMarketConsistencyScore comparison =
        max 0 (min 100 ((1 - comparison.variance /
          ((comparison.UP + comparison.Maharashtra + comparison.Karnataka) / 3)) * 100)))
    ∧ 0 ≤ CGA.calculateMarketConsistencyScore comparison
    ∧ CGA.calculateMarketConsistencyScore comparison ≤ 100 := by
  unfold CGA.calculateMarketConsistencyScore
  simp only [List.foldl_cons, List.foldl_nil, zero_add]
  refine ⟨?_, ?_, ?_, ?_⟩
  · intro h
    rw [if_pos h]
  · intro h
    rw [if_neg h]
  · split_ifs with h
    · norm_num
    · exact le_max_left 0 _
  · split_ifs with h
    · norm_num
    · exact max_le (by norm_num) (min_le_left _ _)

/-- Witness for C9 at a concrete comparison with nonzero mean. -/
theorem calculateMarketConsistencyScore_total_bounded_witness :
    CGA.calculateMarketConsistencyScore
      { timeband := "CPT", UP := 3, Maharashtra := 6, Karnataka := 9,
        bestPerformingMarket := "Karnataka", worstPerformingMarket := "UP",
        variance := 3 } =
      max 0 (min 100 ((1 - (3 : ℚ) / ((3 + 6 + 9) / 3)) * 100)) :=
  (calculateMarketConsistencyScore_total_bounded _).2.1 (by norm_num)

/-- A concrete sample timeband entry for the prime-time-focus scenario. -/
def sampleTb (tb : String) (reach : ℚ) : Types.TimebandMetrics :=
  { timeband := tb, brandAReach := reach, brandAShare := 0, brandAOTS := 0,
    maxCompReach := 0, gap := reach, isPrimetime := (TBP.daypartInfo tb).1,
    daypartCategory := (TBP.daypartInfo tb).2 }

/-- The spec scenario: reaches 1/2/8/3 on NPT, NCPT_EARLY, CPT, NCPT_LATE. -/
def sampleTimebands : List Types.TimebandMetrics :=
  [sampleTb "NPT" 1, sampleTb "NCPT_EARLY" 2, sampleTb "CPT" 8, sampleTb "NCPT_LATE" 3]

/-- C10: `calculatePrimeTimeFocus` is 0 when the total reach is 0 and is
otherwise the prime-band reach over the total reach times 100; on reaches
[1,2,8,3] for NPT/NCPT_EARLY/CPT/NCPT_LATE it equals 650/7 = 92.857...%. -/
theorem calculatePrimeTimeFocus_spec :
    (∀ timebands : List Types.TimebandMetrics, CLF.totalReachOf timebands = 0 →
      CLF.calculatePrimeTimeFocus timebands = 0)
    ∧ (∀ timebands : List Types.TimebandMetrics, CLF.totalReachOf timebands ≠ 0 →
      CLF.calculatePrimeTimeFocus timebands =
        CLF.primeReachOf timebands / CLF.totalReachOf timebands * 100)
    ∧ CLF.calculatePrimeTimeFocus sampleTimebands = 650 / 7 := by
  refine ⟨?_, ?_, ?_⟩
  · intro tbs h
    unfold CLF.calculatePrimeTimeFocus
    rw [if_pos h]
  · intro tbs h
    unfold CLF.calculatePrimeTimeFocus
    rw [if_neg h]
  · have ht : CLF.totalReachOf sampleTimebands = 14 := by
      simp [CLF.totalReachOf, sampleTimebands, sampleTb]
      norm_num
    have hp : CLF.primeReachOf sampleTimebands = 13 := by
      simp [CLF.primeReachOf, sampleTimebands, sampleTb]
      norm_num
    unfold CLF.calculatePrimeTimeFocus
    rw [ht, hp]
    norm_num

/-- Witness for C10: the scenario array has nonzero total, so the focus is
the prime share of total reach. -/
theorem calculatePrimeTimeFocus_spec_witness :
    CLF.calculatePrimeTimeFocus sampleTimebands =
      CLF.primeReachOf sampleTimebands / CLF.totalReachOf sampleTimebands * 100 :=
  calculatePrimeTimeFocus_spec.2.1 sampleTimebands (by
    simp [CLF.totalReachOf, sampleTimebands, sampleTb]
    norm_num)

/-- C8: `calculateDistrictChannels` maps each channel through the per-channel
scaler; a channel with zero region-level reach, or with presence score below
the hash-varied threshold, is returned with reach, competitor reaches, max
competitor reach, gap and competition index all zero while `indexVsBaseline`
keeps its region-level value; and `indexVsBaseline` is preserved for every
output channel, present or absent. -/
theorem calculateDistrictChannels_absence_frame :
    (∀ (s : List Types.ChannelRecord) (d : Types.DistrictRecord)
        (sd : List Types.DistrictRecord),
      CLF.calculateDistrictChannels s d sd = s.map
        (CLF.districtChannelOf (CLF.getBaseCdmiFactor d sd) (CLF.maxShareInSerOf s)
          (CLF.maxReachInSerOf s) d))
    ∧ (∀ (bf ms mr : ℚ) (d : Types.DistrictRecord) (ch : Types.ChannelRecord),
        ch.brandAReach = 0 ∨
          CLF.presenceScoreOf ch.brandAReach mr ch.channelShare ms d <
            CLF.presenceThresholdOf d.district ch.channel →
        (CLF.districtChannelOf bf ms mr d ch).brandAReach = 0 ∧
        (CLF.districtChannelOf bf ms mr d ch).brandDReach = some 0 ∧
        (CLF.districtChannelOf bf ms mr d ch).luxReach = some 0 ∧
        (CLF.districtChannelOf bf ms mr d ch).maxCompReach = 0 ∧
        (CLF.districtChannelOf bf ms mr d ch).gap = 0 ∧
        (CLF.districtChannelOf bf ms mr d ch).indexVsCompetition = 0 ∧
        (CLF.districtChannelOf bf ms mr d ch).indexVsBaseline = ch.indexVsBaseline)
    ∧ (∀ (bf ms mr : ℚ) (d : Types.DistrictRecord) (ch : Types.ChannelRecord),
        (CLF.districtChannelOf bf ms mr d ch).indexVsBaseline = ch.indexVsBaseline) := by
  refine ⟨fun s d sd => rfl, ?_, ?_⟩
  · intro bf ms mr d ch h
    have hpres : CLF.getChannelPresence d.district ch.channel ch.brandAReach mr
        ch.channelShare ms d = false := by
      unfold CLF.getChannelPresence
      rcases h with h0 | hs
      · rw [if_pos (le_of_eq h0)]
      · split_ifs with hb
        · rfl
        · exact decide_eq_false (not_le.mpr hs)
    unfold CLF.districtChannelOf
    rw [if_pos hpres]
    exact ⟨rfl, rfl, rfl, rfl, rfl, rfl, rfl⟩
  · intro bf ms mr d ch
    unfold CLF.districtChannelOf
    split_ifs with h
    · rfl
    · rfl

/-- A concrete district record for the absence scenario. -/
def sampleDistrict : Types.DistrictRecord :=
  { ser := "UP", scrKey := "UP", district := "Lucknow", syncPop := 0, censusPop := 0,
    urbanPct := 0.5, literacyPct := 0.7, tvOwnershipPct := 0.6, mobilePct := 0.5,
    electrificationPct := 0.9, internetPct := 0.4, cdmiScore := 1, allocPctInSer := 0,
    reachOverall := 0, reachUrban := 0, reachRural := 0, targetPop := 0,
    reachedPop := 0, confidence := "High" }

/-- A concrete channel with zero region-level brand-A reach. -/
def sampleZeroChannel : Types.ChannelRecord :=
  { channel := "Z", genre := "GEC", brandAReach := 0, maxCompReach := 2, gap := -2,
    channelShare := 1, indexVsBaseline := 77, indexVsCompetition := 0 }

/-- Witness for C8: a zero-reach channel is zeroed in the district while its
baseline index 77 is preserved. -/
theorem calculateDistrictChannels_absence_frame_witness :
    (CLF.districtChannelOf 1 1 1 sampleDistrict sampleZeroChannel).brandAReach = 0 ∧
    (CLF.districtChannelOf 1 1 1 sampleDistrict sampleZeroChannel).brandDReach = some 0 ∧
    (CLF.districtChannelOf 1 1 1 sampleDistrict sampleZeroChannel).luxReach = some 0 ∧
    (CLF.districtChannelOf 1 1 1 sampleDistrict sampleZeroChannel).maxCompReach = 0 ∧
    (CLF.districtChannelOf 1 1 1 sampleDistrict sampleZeroChannel).gap = 0 ∧
    (CLF.districtChannelOf 1 1 1 sampleDistrict sampleZeroChannel).indexVsCompetition = 0 ∧
    (CLF.districtChannelOf 1 1 1 sampleDistrict sampleZeroChannel).indexVsBaseline =
      sampleZeroChannel.indexVsBaseline :=
  calculateDistrictChannels_absence_frame.2.1 1 1 1 sampleDistrict sampleZeroChannel
    (Or.inl rfl)

/-- A rational that is an integer number of hundredths (the image of
`toFixed(2)` rounding). -/
def IsHundredth (x : ℚ) : Prop := ∃ k : ℤ, x = (k : ℚ) / 100

theorem isHundredth_round2 (x : ℚ) : IsHundredth (CLF.round2 x) :=
  ⟨⌊x * 100 + 1 / 2⌋, rfl⟩

theorem isHundredth_zero : IsHundredth 0 := ⟨0, by norm_num⟩

theorem isHundredth_sub {x y : ℚ} (hx : IsHundredth x) (hy : IsHundredth y) :
    IsHundredth (x - y) := by
  obtain ⟨a, rfl⟩ := hx
  obtain ⟨b, rfl⟩ := hy
  exact ⟨a - b, by push_cast; ring⟩

theorem isHundredth_max {x y : ℚ} (hx : IsHundredth x) (hy : IsHundredth y) :
    IsHundredth (max x y) := by
  rcases max_choice x y with h | h <;> rw [h] <;> assumption

theorem isHundredth_map_getD (o : Option ℚ) (f : ℚ → ℚ) :
    IsHundredth ((o.map (fun v => CLF.round2 (f v))).getD 0) := by
  cases o with
  | none => exact isHundredth_zero
  | some v => exact isHundredth_round2 (f v)

theorem round2_eq_self {x : ℚ} (h : IsHundredth x) : CLF.round2 x = x := by
  obtain ⟨k, rfl⟩ := h
  unfold CLF.round2
  have h1 : (k : ℚ) / 100 * 100 + 1 / 2 = (k : ℚ) + 1 / 2 := by
    field_simp
  rw [h1, add_comm, Int.floor_add_int]
  norm_num

theorem mkTimebandMetrics_inv (market timeband : String) (data : TBP.TBAccum) :
    (TBP.mkTimebandMetrics market timeband data).gap =
      (TBP.mkTimebandMetrics market timeband data).brandAReach -
        (TBP.mkTimebandMetrics market timeband data).maxCompReach ∧
    (TBP.mkTimebandMetrics market timeband data).maxCompReach =
      ((TBP.competitorAveragesOf data).map (fun p => p.2)).foldl max 0 := by
  unfold TBP.mkTimebandMetrics
  split_ifs <;> exact ⟨rfl, rfl⟩

theorem createEmptyTimeband_inv (timeband market : String) :
    (TBP.createEmptyTimeband timeband market).gap =
      (TBP.createEmptyTimeband timeband market).brandAReach -
        (TBP.createEmptyTimeband timeband market).maxCompReach := by
  unfold TBP.createEmptyTimeband
  split_ifs <;> norm_num

theorem zeroTimeband_inv (tb : Types.TimebandMetrics) :
    (CLF.zeroTimeband tb).gap =
      (CLF.zeroTimeband tb).brandAReach - (CLF.zeroTimeband tb).maxCompReach := by
  simp [CLF.zeroTimeband]

theorem scaleTimeband_inv (f c1 c2 n : ℚ) (tb : Types.TimebandMetrics) :
    (CLF.scaleTimeband f c1 c2 n tb).gap =
      (CLF.scaleTimeband f c1 c2 n tb).brandAReach -
        (CLF.scaleTimeband f c1 c2 n tb).maxCompReach := by
  unfold CLF.scaleTimeband
  exact round2_eq_self (isHundredth_sub (isHundredth_round2 _)
    (isHundredth_max (isHundredth_max (isHundredth_map_getD _ _)
      (isHundredth_map_getD _ _)) (isHundredth_round2 _)))

theorem districtChannelOf_gap_inv (bf ms mr : ℚ) (d : Types.DistrictRecord)
    (ch : Types.ChannelRecord) :
    (CLF.districtChannelOf bf ms mr d ch).gap =
      (CLF.districtChannelOf bf ms mr d ch).brandAReach -
        (CLF.districtChannelOf bf ms mr d ch).maxCompReach := by
  unfold CLF.districtChannelOf
  split_ifs with hp
  · norm_num
  · exact round2_eq_self (isHundredth_sub (isHundredth_round2 _)
      (isHundredth_max (isHundredth_map_getD _ _) (isHundredth_map_getD _ _)))

theorem districtChannelOf_tb_inv (bf ms mr : ℚ) (d : Types.DistrictRecord)
    (ch : Types.ChannelRecord) :
    ∀ tbs, (CLF.districtChannelOf bf ms mr d ch).timebands = some tbs →
      ∀ tb ∈ tbs, tb.gap = tb.brandAReach - tb.maxCompReach := by
  intro tbs htbs tb htb
  unfold CLF.districtChannelOf at htbs
  split_ifs at htbs with hp
  · have h2 : ch.timebands.map (fun l => l.map CLF.zeroTimeband) = some tbs := htbs
    cases hct : ch.timebands with
    | none =>
      rw [hct] at h2
      simp at h2
    | some l =>
      rw [hct] at h2
      obtain rfl := Option.some.inj h2
      obtain ⟨x, hx, rfl⟩ := List.mem_map.mp htb
      exact zeroTimeband_inv x
  · cases hct : ch.timebands with
    | none =>
      rw [hct] at htbs
      simp at htbs
    | some l =>
      rw [hct] at htbs
      have h2 := Option.some.inj htbs
      rw [← h2] at htb
      obtain ⟨x, hx, rfl⟩ := List.mem_map.mp htb
      exact scaleTimeband_inv _ _ _ _ x

/-- C6: every timeband entry produced by `parseTimebandData` (including the
`createEmptyTimeband` fallback), every entry of `generateSampleTimebandData`,
and every channel and timeband entry produced by `calculateDistrictChannels`
satisfies `gap = brandAReach - maxCompReach` exactly (hence within the 1e-6
tolerance), and in the parsing conversion `maxCompReach` is the maximum of
the per-competitor average reaches and 0. -/
theorem gap_invariant_everywhere :
    (∀ (rawData : List TBP.RawRow) (market : String)
        (entry : String × List Types.TimebandMetrics),
      entry ∈ TBP.parseTimebandData rawData market →
      ∀ tb ∈ entry.2, tb.gap = tb.brandAReach - tb.maxCompReach)
    ∧ (∀ (market timeband : String) (data : TBP.TBAccum),
      (TBP.mkTimebandMetrics market timeband data).maxCompReach =
        ((TBP.competitorAveragesOf data).map (fun p => p.2)).foldl max 0)
    ∧ (∀ timeband market : String,
      (TBP.createEmptyTimeband timeband market).gap =
        (TBP.createEmptyTimeband timeband market).brandAReach -
          (TBP.createEmptyTimeband timeband market).maxCompReach)
    ∧ (∀ (channel : Types.ChannelRecord) (market : String),
      ∀ tb ∈ TBP.generateSampleTimebandData channel market,
        tb.gap = tb.brandAReach - tb.maxCompReach)
    ∧ (∀ (s : List Types.ChannelRecord) (d : Types.DistrictRecord)
        (sd : List Types.DistrictRecord) (out : Types.ChannelRecord),
      out ∈ CLF.calculateDistrictChannels s d sd →
      out.gap = out.brandAReach - out.maxCompReach ∧
      ∀ tbs, out.timebands = some tbs →
        ∀ tb ∈ tbs, tb.gap = tb.brandAReach - tb.maxCompReach) := by
  refine ⟨?_, ?_, ?_, ?_, ?_⟩
  · intro rawData market entry hmem tb htb
    unfold TBP.parseTimebandData at hmem
    obtain ⟨p, hp, rfl⟩ := List.mem_map.mp hmem
    obtain ⟨lab, hlab, rfl⟩ := List.mem_map.mp htb
    cases hg : mapGet p.2 lab with
    | none =>
      simp only [hg]
      exact createEmptyTimeband_inv lab market
    | some data =>
      simp only [hg]
      exact (mkTimebandMetrics_inv market lab data).1
  · exact fun market timeband data => (mkTimebandMetrics_inv market timeband data).2
  · exact createEmptyTimeband_inv
  · intro channel market tb htb
    unfold TBP.generateSampleTimebandData at htb
    obtain ⟨lab, hlab, rfl⟩ := List.mem_map.mp htb
    split_ifs <;> rfl
  · intro s d sd out hout
    unfold CLF.calculateDistrictChannels at hout
    obtain ⟨ch, hch, rfl⟩ := List.mem_map.mp hout
    exact ⟨districtChannelOf_gap_inv _ _ _ _ _, districtChannelOf_tb_inv _ _ _ _ _⟩

/-- Witness for C6: the gap invariant on the concrete district scaling of a
concrete channel. -/
theorem gap_invariant_everywhere_witness :
    (CLF.districtChannelOf (CLF.getBaseCdmiFactor sampleDistrict [sampleDistrict])
        (CLF.maxShareInSerOf [sampleZeroChannel]) (CLF.maxReachInSerOf [sampleZeroChannel])
        sampleDistrict sampleZeroChannel).gap =
      (CLF.districtChannelOf (CLF.getBaseCdmiFactor sampleDistrict [sampleDistrict])
        (CLF.maxShareInSerOf [sampleZeroChannel]) (CLF.maxReachInSerOf [sampleZeroChannel])
        sampleDistrict sampleZeroChannel).brandAReach -
      (CLF.districtChannelOf (CLF.getBaseCdmiFactor sampleDistrict [sampleDistrict])
        (CLF.maxShareInSerOf [sampleZeroChannel]) (CLF.maxReachInSerOf [sampleZeroChannel])
        sampleDistrict sampleZeroChannel).maxCompReach :=
  (gap_invariant_everywhere.2.2.2.2 [sampleZeroChannel] sampleDistrict [sampleDistrict] _
    (List.mem_map_of_mem _ (List.mem_singleton.mpr rfl))).1
